import Mathlib

/-
  Verification development for the News Agent API backend
  (src/backend/main.py, endpoint POST /fetch-news).

  The handler is embedded shallowly as a pure function of
    - the process configuration (the two API keys as read by os.getenv),
    - the request body (date string, topics),
    - the search provider's parsed JSON response (only the fields the
      handler inspects: "error", "news_results" with the item fields
      "title"/"source"/"snippet"/"date"/"link"),
    - the outcome of parsing the generative model's textual reply with
      json.loads (either an exception of the caught kinds, or a parsed
      JSON object restricted to its string-valued fields).
  The function also returns a trace recording which outbound calls were
  made and, when the model is called, the joined article text that is
  interpolated into the prompt.

  Date validation embeds CPython's datetime.strptime(s, "%Y-%m-%d"):
  the pattern regex uses the alternatives
    %Y = four digits, %m = 1[0-2]|0[1-9]|[1-9],
    %d = 3[01]|[12]\d|0[1-9]|[1-9]|space[1-9],
  matched left to right with backtracking, followed by the check that the
  whole string was consumed and that datetime(year, month, day) is
  constructible (year at least 1, day within the month, Gregorian leap
  rule).  Digits are modelled as ASCII digits.

  Python exception flow: fastapi.HTTPException subclasses Exception, so
  an HTTPException raised inside the handler's `try:` body is caught by
  its blanket `except Exception as e:` and re-raised as
  HTTPException(500, "Error fetching news: " + str(e)), where str on a
  starlette HTTPException renders as "<status>: <detail>".  Only the two
  API-key checks sit outside the `try:` and surface unchanged.
-/

namespace NewsAgent

/-- Numeric value of an ASCII digit character. -/
def digitVal (c : Char) : Nat := c.toNat - 48

/-- Matches the character class [1-9]. -/
def isDigit19 (c : Char) : Bool := Nat.ble 49 c.toNat && Nat.ble c.toNat 57

/-- Matches %Y: exactly four digits, returning the year value and the rest. -/
def matchYear4 : List Char → Option (Nat × List Char)
  | a :: b :: c :: d :: rest =>
    if a.isDigit && b.isDigit && c.isDigit && d.isDigit then
      some (digitVal a * 1000 + digitVal b * 100 + digitVal c * 10 + digitVal d, rest)
    else
      none
  | _ => none

/-- Matches a literal character of the format string. -/
def matchLit (c : Char) : List Char → Option (List Char)
  | x :: rest => if x == c then some rest else none
  | [] => none

/-- Alternative 1[0-2] of %m. -/
def monthAltA : List Char → Option (Nat × List Char)
  | c1 :: c2 :: rest =>
    if c1 == '1' && (c2 == '0' || c2 == '1' || c2 == '2') then
      some (10 + digitVal c2, rest)
    else
      none
  | _ => none

/-- Alternative 0[1-9] of %m. -/
def monthAltB : List Char → Option (Nat × List Char)
  | c1 :: c2 :: rest =>
    if c1 == '0' && isDigit19 c2 then some (digitVal c2, rest) else none
  | _ => none

/-- Alternative [1-9] of %m. -/
def monthAltC : List Char → Option (Nat × List Char)
  | c1 :: rest => if isDigit19 c1 then some (digitVal c1, rest) else none
  | _ => none

/-- All %m alternatives in regex alternation order. -/
def monthAlternatives (cs : List Char) : List (Nat × List Char) :=
  [monthAltA cs, monthAltB cs, monthAltC cs].filterMap id

/-- Alternative 3[01] of %d. -/
def dayAltA : List Char → Option (Nat × List Char)
  | c1 :: c2 :: rest =>
    if c1 == '3' && (c2 == '0' || c2 == '1') then some (30 + digitVal c2, rest) else none
  | _ => none

/-- Alternative [12] followed by a digit, of %d. -/
def dayAltB : List Char → Option (Nat × List Char)
  | c1 :: c2 :: rest =>
    if (c1 == '1' || c1 == '2') && c2.isDigit then
      some (digitVal c1 * 10 + digitVal c2, rest)
    else
      none
  | _ => none

/-- Alternative 0[1-9] of %d. -/
def dayAltC : List Char → Option (Nat × List Char)
  | c1 :: c2 :: rest =>
    if c1 == '0' && isDigit19 c2 then some (digitVal c2, rest) else none
  | _ => none

/-- Alternative [1-9] of %d. -/
def dayAltD : List Char → Option (Nat × List Char)
  | c1 :: rest => if isDigit19 c1 then some (digitVal c1, rest) else none
  | _ => none

/-- Alternative space followed by [1-9], of %d. -/
def dayAltE : List Char → Option (Nat × List Char)
  | c1 :: c2 :: rest =>
    if c1 == ' ' && isDigit19 c2 then some (digitVal c2, rest) else none
  | _ => none

/-- All %d alternatives in regex alternation order. -/
def dayAlternatives (cs : List Char) : List (Nat × List Char) :=
  [dayAltA cs, dayAltB cs, dayAltC cs, dayAltD cs, dayAltE cs].filterMap id

/-- Matches %m followed by the literal dash followed by %d, trying the %m
alternatives in order and backtracking when the continuation fails; %d takes
its first matching alternative (nothing of the pattern follows it). -/
def matchMonthDashDay (cs : List Char) : Option (Nat × Nat × List Char) :=
  (monthAlternatives cs).findSome? fun mr =>
    match matchLit '-' mr.2 with
    | some r2 =>
      match (dayAlternatives r2).head? with
      | some dr => some (mr.1, dr.1, dr.2)
      | none => none
    | none => none

/-- Regex phase of datetime.strptime(s, "%Y-%m-%d"): the leftmost match of
the compiled pattern against a prefix of s, then the check that no
unconverted data remains. -/
def strptimeYMD (s : String) : Option (Nat × Nat × Nat) :=
  match matchYear4 s.data with
  | some yr =>
    match matchLit '-' yr.2 with
    | some r1 =>
      match matchMonthDashDay r1 with
      | some mdr => if mdr.2.2.isEmpty then some (yr.1, mdr.1, mdr.2.1) else none
      | none => none
    | none => none
  | none => none

/-- Gregorian leap-year rule, as in Python's datetime. -/
def isLeapYear (y : Nat) : Bool := y % 4 == 0 && (y % 100 != 0 || y % 400 == 0)

/-- Number of days of a month, as validated by the datetime constructor. -/
def daysInMonth (y m : Nat) : Nat :=
  if m == 2 then (if isLeapYear y then 29 else 28)
  else if m == 4 || m == 6 || m == 9 || m == 11 then 30
  else 31

/-- True exactly when datetime.strptime(s, "%Y-%m-%d") succeeds: the
pattern matches the whole string and datetime(year, month, day) is
constructible.  Note that strptime also accepts dates without leading
zeros, such as "2024-1-5". -/
def valid_date (s : String) : Bool :=
  match strptimeYMD s with
  | some ymd => Nat.ble 1 ymd.1 && Nat.ble ymd.2.2 (daysInMonth ymd.1 ymd.2.1)
  | none => false

/-- Truthiness of os.getenv's result, as tested by `if not KEY:`. -/
def pyTruthy : Option String → Bool
  | none => false
  | some s => !s.isEmpty

/-- Process configuration: the two environment variables read at module load. -/
structure Config where
  serpKey : Option String
  googleKey : Option String
  deriving Repr, DecidableEq

/-- Request body of POST /fetch-news (pydantic model NewsRequest). -/
structure NewsRequest where
  date : String
  topics : List String
  deriving Repr, DecidableEq

/-- Response item (pydantic model NewsArticle). -/
structure NewsArticle where
  title : String
  source : String
  snippet : String
  date : String
  url : Option String
  deriving Repr, DecidableEq

/-- Response body (pydantic model NewsResponse). -/
structure NewsResponse where
  articles : List NewsArticle
  summary : String
  headline : String
  deriving Repr, DecidableEq

/-- One entry of the search provider's news_results array, restricted to the
five fields the handler reads; a missing key is None. -/
structure SerpItem where
  title : Option String
  source : Option String
  snippet : Option String
  date : Option String
  link : Option String
  deriving Repr, DecidableEq

/-- The search provider's parsed JSON response, restricted to the two keys
the handler tests: "error" (absent or a message) and "news_results" (absent
or an array of items). -/
structure SerpData where
  error : Option String
  news_results : Option (List SerpItem)
  deriving Repr, DecidableEq

/-- Outcome of json.loads on the model reply's text: either an exception of
one of the caught kinds (json.JSONDecodeError from malformed JSON, or
AttributeError from a missing text attribute or a non-dict parse), or a
JSON object restricted to its string-valued members. -/
inductive GeminiParse where
  | caught
  | dict (kvs : List (String × String))
  deriving Repr, DecidableEq

/-- Python dict.get with a default, on the modelled JSON object. -/
def dictGet (kvs : List (String × String)) (k : String) (dflt : String) : String :=
  match kvs.lookup k with
  | some v => v
  | none => dflt

/-- Headline and summary extracted from the model reply: defaults per key on
a parsed object, fixed fallback literals when parsing raised. -/
def geminiHeadlineSummary : GeminiParse → String × String
  | .caught => ("News of the Day", "Summary not available due to processing error.")
  | .dict kvs =>
    (dictGet kvs "headline" "News of the Day", dictGet kvs "summary" "Summary not available.")

/-- Article built from one provider item, with the handler's defaults:
empty string for title/source/snippet, the request's date for date, and
url from "link" defaulting to the empty string. -/
def toArticle (reqDate : String) (item : SerpItem) : NewsArticle :=
  { title := item.title.getD ""
    source := item.source.getD ""
    snippet := item.snippet.getD ""
    date := item.date.getD reqDate
    url := some (item.link.getD "") }

/-- Per-article block of the prompt's news-articles section. -/
def articleText (a : NewsArticle) : String :=
  "Title: " ++ a.title ++ "\nSource: " ++ a.source ++ "\nSnippet: " ++ a.snippet

/-- The "\n\n".join of the article blocks, as interpolated into the prompt. -/
def joinArticles (arts : List NewsArticle) : String :=
  String.intercalate "\n\n" (arts.map articleText)

/-- Result of one invocation: a 200 response body, or an HTTPException
rendered with its status code and detail message. -/
inductive FetchResult where
  | ok (r : NewsResponse)
  | httpError (status : Nat) (detail : String)
  deriving Repr, DecidableEq

/-- Trace of the invocation's outbound calls: whether the search provider
was called, whether the generative model was called, and the joined article
text interpolated into the prompt when it was. -/
structure CallTrace where
  serpCalled : Bool
  modelCalled : Bool
  articlesText : Option String
  deriving Repr, DecidableEq

/-- Rendering of str(e) on a starlette HTTPException. -/
def httpExceptionStr (status : Nat) (detail : String) : String :=
  toString status ++ ": " ++ detail

/-- Detail produced by the handler's blanket `except Exception as e:`
clause for an HTTPException it caught. -/
def wrapCaught (status : Nat) (detail : String) : String :=
  "Error fetching news: " ++ httpExceptionStr status detail

/-- The POST /fetch-news handler.  The two API-key checks run before the
`try:` block, so their 500s surface unchanged; the 400s raised inside the
block for an invalid date or a provider error field are caught by the
blanket `except Exception as e:` and re-raised as wrapped 500s. -/
def fetch_news (cfg : Config) (req : NewsRequest) (serp : SerpData)
    (gemini : GeminiParse) : FetchResult × CallTrace :=
  if !pyTruthy cfg.serpKey then
    (.httpError 500 "SERP API key not configured", ⟨false, false, none⟩)
  else if !pyTruthy cfg.googleKey then
    (.httpError 500 "Google API key not configured", ⟨false, false, none⟩)
  else if !valid_date req.date then
    (.httpError 500 (wrapCaught 400 "Invalid date format. Use YYYY-MM-DD"),
     ⟨false, false, none⟩)
  else
    match serp.error with
    | some msg => (.httpError 500 (wrapCaught 400 msg), ⟨true, false, none⟩)
    | none =>
      match serp.news_results with
      | none =>
        (.ok ⟨[], "No news found for the specified date and topics.", "No News Available"⟩,
         ⟨true, false, none⟩)
      | some items =>
        let articles := (items.take 15).map (toArticle req.date)
        let atext := joinArticles articles
        let hs := geminiHeadlineSummary gemini
        (.ok ⟨articles, hs.2, hs.1⟩, ⟨true, true, some atext⟩)

example : valid_date "2024-01-15" = true := by decide
example : valid_date "2024/01/01" = false := by decide
example : valid_date "not-a-date" = false := by decide
example : valid_date "2024-02-30" = false := by decide
example : valid_date "2024-02-29" = true := by decide
example : valid_date "2023-02-29" = false := by decide
example : valid_date "2024-1-5" = true := by decide
example : valid_date "0000-01-01" = false := by decide
example : valid_date "2024-01-155" = false := by decide

/-- C1: at the malformed date "2024/01/01" with both API keys configured,
the handler makes no outbound call, but the response is an HTTP 500 whose
detail wraps the inner 400, not the HTTP 400 the claim states: the inner
HTTPException(400, "Invalid date format. Use YYYY-MM-DD") is caught by the
blanket `except Exception` clause and re-raised as a 500. -/
theorem C1_invalid_date_surfaces_as_500 :
    fetch_news ⟨some "serp-key", some "google-key"⟩ ⟨"2024/01/01", ["elections"]⟩
      ⟨none, none⟩ .caught =
    (.httpError 500 "Error fetching news: 400: Invalid date format. Use YYYY-MM-DD",
     ⟨false, false, none⟩) := by decide

/-- C2: when the search provider's response carries an explicit error field,
the handler fails, but with an HTTP 500 whose detail wraps the provider's
message, not the HTTP 400 carrying exactly that message which the claim
states: the inner HTTPException(400, data["error"]) is caught by the blanket
`except Exception` clause and re-raised as a 500. -/
theorem C2_provider_error_surfaces_as_500 :
    fetch_news ⟨some "serp-key", some "google-key"⟩ ⟨"2024-01-15", ["economy"]⟩
      ⟨some "API quota exceeded", none⟩ .caught =
    (.httpError 500 "Error fetching news: 400: API quota exceeded",
     ⟨true, false, none⟩) := by decide

/-- C3: with both keys configured, a valid date, no provider error field and
no news_results key, the handler returns the successful empty NewsResult
with summary "No news found for the specified date and topics." and headline
"No News Available", and the generative model is not called. -/
theorem C3_no_results_short_circuit (cfg : Config) (req : NewsRequest)
    (serp : SerpData) (gemini : GeminiParse)
    (hS : pyTruthy cfg.serpKey = true) (hG : pyTruthy cfg.googleKey = true)
    (hD : valid_date req.date = true)
    (hE : serp.error = none) (hN : serp.news_results = none) :
    fetch_news cfg req serp gemini =
      (.ok ⟨[], "No news found for the specified date and topics.", "No News Available"⟩,
       ⟨true, false, none⟩) := by
  simp [fetch_news, hS, hG, hD, hE, hN]

theorem C3_witness :
    fetch_news ⟨some "sk", some "gk"⟩ ⟨"2024-01-15", ["sports"]⟩ ⟨none, none⟩ .caught =
      (.ok ⟨[], "No news found for the specified date and topics.", "No News Available"⟩,
       ⟨true, false, none⟩) :=
  C3_no_results_short_circuit ⟨some "sk", some "gk"⟩ ⟨"2024-01-15", ["sports"]⟩
    ⟨none, none⟩ .caught (by decide) (by decide) (by decide) rfl rfl

/-- C4: when the model reply fails to parse as JSON (or its text attribute
is missing), the handler still returns a successful NewsResult whose
headline is "News of the Day" and whose summary is "Summary not available
due to processing error."; the parse failure never becomes an error
response. -/
theorem C4_parse_failure_degraded_success (cfg : Config) (req : NewsRequest)
    (serp : SerpData) (items : List SerpItem)
    (hS : pyTruthy cfg.serpKey = true) (hG : pyTruthy cfg.googleKey = true)
    (hD : valid_date req.date = true)
    (hE : serp.error = none) (hN : serp.news_results = some items) :
    fetch_news cfg req serp .caught =
      (.ok ⟨(items.take 15).map (toArticle req.date),
            "Summary not available due to processing error.", "News of the Day"⟩,
       ⟨true, true, some (joinArticles ((items.take 15).map (toArticle req.date)))⟩) := by
  simp [fetch_news, hS, hG, hD, hE, hN, geminiHeadlineSummary]

theorem C4_witness :
    fetch_news ⟨some "sk", some "gk"⟩ ⟨"2024-01-15", ["economy"]⟩
      ⟨none, some [⟨some "T", some "S", some "N", some "D", some "U"⟩]⟩ .caught =
      (.ok ⟨[⟨"T", "S", "N", "D", some "U"⟩],
            "Summary not available due to processing error.", "News of the Day"⟩,
       ⟨true, true, some "Title: T\nSource: S\nSnippet: N"⟩) :=
  C4_parse_failure_degraded_success ⟨some "sk", some "gk"⟩ ⟨"2024-01-15", ["economy"]⟩
    ⟨none, some [⟨some "T", some "S", some "N", some "D", some "U"⟩]⟩
    [⟨some "T", some "S", some "N", some "D", some "U"⟩]
    (by decide) (by decide) (by decide) rfl rfl

/-- C5: every successful NewsResult the handler returns carries at most 15
articles, however many entries the provider supplied. -/
theorem C5_articles_capped (cfg : Config) (req : NewsRequest) (serp : SerpData)
    (gemini : GeminiParse) (r : NewsResponse) (t : CallTrace)
    (h : fetch_news cfg req serp gemini = (.ok r, t)) :
    r.articles.length ≤ 15 := by
  unfold fetch_news at h
  split at h
  · simp at h
  split at h
  · simp at h
  split at h
  · simp at h
  split at h
  · simp at h
  split at h
  · simp only [Prod.mk.injEq] at h
    obtain ⟨h1, -⟩ := h
    injection h1 with h2
    rw [← h2]
    decide
  · simp only [Prod.mk.injEq] at h
    obtain ⟨h1, -⟩ := h
    injection h1 with h2
    rw [← h2]
    simp only [List.length_map, List.length_take]
    omega

theorem C5_witness :
    (⟨[], "Summary not available due to processing error.", "News of the Day"⟩ :
      NewsResponse).articles.length ≤ 15 :=
  C5_articles_capped ⟨some "sk", some "gk"⟩ ⟨"2024-03-01", ["a"]⟩ ⟨none, some []⟩ .caught
    ⟨[], "Summary not available due to processing error.", "News of the Day"⟩
    ⟨true, true, some ""⟩ (by decide)

/-- C6: on the mapping path the articles are exactly the first 15 provider
entries in provider order, each with title/source/snippet copied when
present and defaulted to the empty string when absent, and date copied when
present and defaulted to the request's date when absent. -/
theorem C6_article_field_mapping (cfg : Config) (req : NewsRequest)
    (serp : SerpData) (gemini : GeminiParse) (items : List SerpItem)
    (hS : pyTruthy cfg.serpKey = true) (hG : pyTruthy cfg.googleKey = true)
    (hD : valid_date req.date = true)
    (hE : serp.error = none) (hN : serp.news_results = some items) :
    (fetch_news cfg req serp gemini).1 =
      .ok ⟨(items.take 15).map (fun item =>
              ⟨item.title.getD "", item.source.getD "", item.snippet.getD "",
               item.date.getD req.date, some (item.link.getD "")⟩),
           (geminiHeadlineSummary gemini).2, (geminiHeadlineSummary gemini).1⟩ := by
  have hfun : toArticle req.date = (fun item : SerpItem =>
      ({ title := item.title.getD "", source := item.source.getD "",
         snippet := item.snippet.getD "", date := item.date.getD req.date,
         url := some (item.link.getD "") } : NewsArticle)) := funext fun item => rfl
  simp [fetch_news, hS, hG, hD, hE, hN, hfun]

theorem C6_witness :
    (fetch_news ⟨some "sk", some "gk"⟩ ⟨"2024-01-15", ["economy"]⟩
      ⟨none, some [⟨some "A", none, none, none, none⟩, ⟨none, some "B", none, some "2024-01-14", none⟩]⟩
      .caught).1 =
      .ok ⟨[⟨"A", "", "", "2024-01-15", some ""⟩, ⟨"", "B", "", "2024-01-14", some ""⟩],
           "Summary not available due to processing error.", "News of the Day"⟩ :=
  C6_article_field_mapping ⟨some "sk", some "gk"⟩ ⟨"2024-01-15", ["economy"]⟩
    ⟨none, some [⟨some "A", none, none, none, none⟩, ⟨none, some "B", none, some "2024-01-14", none⟩]⟩
    .caught
    [⟨some "A", none, none, none, none⟩, ⟨none, some "B", none, some "2024-01-14", none⟩]
    (by decide) (by decide) (by decide) rfl rfl

/-- C7: the end-to-end example: date 2024-01-15, topics elections and
economy, a stub provider returning two news_results items, and a stub model
returning a JSON object with the headline "Economy Sways Vote" and a
summary, produce a NewsResult with exactly those two articles (fields
copied or defaulted per the mapping rules) and the given headline and
summary. -/
theorem C7_end_to_end_example :
    fetch_news ⟨some "sk", some "gk"⟩ ⟨"2024-01-15", ["elections", "economy"]⟩
      ⟨none, some [⟨some "Polls Open", some "The Hindu", some "Voting begins", some "2024-01-15",
                     some "http://a"⟩,
                   ⟨some "Markets Rally", none, some "Stocks up", none, none⟩]⟩
      (.dict [("headline", "Economy Sways Vote"), ("summary", "...")]) =
    (.ok ⟨[⟨"Polls Open", "The Hindu", "Voting begins", "2024-01-15", some "http://a"⟩,
           ⟨"Markets Rally", "", "Stocks up", "2024-01-15", some ""⟩],
          "...", "Economy Sways Vote"⟩,
     ⟨true, true,
      some ("Title: Polls Open\nSource: The Hindu\nSnippet: Voting begins\n\n" ++
            "Title: Markets Rally\nSource: \nSnippet: Stocks up")⟩) := by decide

/-- C8: when either API key is absent (or empty), the handler fails with an
HTTP 500 carrying a detail message, before any date validation or outbound
call: neither provider is contacted, whatever the request. -/
theorem C8_missing_key_500 (cfg : Config) (req : NewsRequest) (serp : SerpData)
    (gemini : GeminiParse)
    (h : pyTruthy cfg.serpKey = false ∨ pyTruthy cfg.googleKey = false) :
    ∃ detail, fetch_news cfg req serp gemini =
      (.httpError 500 detail, ⟨false, false, none⟩) := by
  unfold fetch_news
  rcases h with h | h
  · rw [h]
    exact ⟨"SERP API key not configured", rfl⟩
  · cases hS : pyTruthy cfg.serpKey
    · exact ⟨"SERP API key not configured", rfl⟩
    · rw [h]
      exact ⟨"Google API key not configured", rfl⟩

theorem C8_witness :
    ∃ detail, fetch_news ⟨none, some "gk"⟩ ⟨"2024-01-15", ["economy"]⟩ ⟨none, none⟩ .caught =
      (.httpError 500 detail, ⟨false, false, none⟩) :=
  C8_missing_key_500 ⟨none, some "gk"⟩ ⟨"2024-01-15", ["economy"]⟩ ⟨none, none⟩ .caught
    (Or.inl (by decide))

/-- C9: when news_results is present but empty, the handler does not take
the "No News Available" short circuit: it returns an empty article list,
the model is called with a prompt whose article text is empty, and the
headline and summary come from the model reply. -/
theorem C9_empty_results_calls_model (cfg : Config) (req : NewsRequest)
    (serp : SerpData) (gemini : GeminiParse)
    (hS : pyTruthy cfg.serpKey = true) (hG : pyTruthy cfg.googleKey = true)
    (hD : valid_date req.date = true)
    (hE : serp.error = none) (hN : serp.news_results = some []) :
    fetch_news cfg req serp gemini =
      (.ok ⟨[], (geminiHeadlineSummary gemini).2, (geminiHeadlineSummary gemini).1⟩,
       ⟨true, true, some ""⟩) := by
  simp [fetch_news, hS, hG, hD, hE, hN, joinArticles, String.intercalate]

theorem C9_witness :
    fetch_news ⟨some "sk", some "gk"⟩ ⟨"2024-01-15", ["economy"]⟩ ⟨none, some []⟩
      (.dict [("headline", "H"), ("summary", "S")]) =
      (.ok ⟨[], (geminiHeadlineSummary (.dict [("headline", "H"), ("summary", "S")])).2,
            (geminiHeadlineSummary (.dict [("headline", "H"), ("summary", "S")])).1⟩,
       ⟨true, true, some ""⟩) :=
  C9_empty_results_calls_model ⟨some "sk", some "gk"⟩ ⟨"2024-01-15", ["economy"]⟩
    ⟨none, some []⟩ (.dict [("headline", "H"), ("summary", "S")])
    (by decide) (by decide) (by decide) rfl rfl

/-- C10: when the model reply parses as a JSON object, each of the two keys
defaults individually: a missing "headline" key yields the headline "News of
the Day" and a missing "summary" key yields the summary "Summary not
available." — a summary literal distinct from the parse-failure fallback
"Summary not available due to processing error.". -/
theorem C10_parsed_object_defaults (cfg : Config) (req : NewsRequest)
    (serp : SerpData) (kvs : List (String × String)) (items : List SerpItem)
    (r : NewsResponse) (t : CallTrace)
    (hS : pyTruthy cfg.serpKey = true) (hG : pyTruthy cfg.googleKey = true)
    (hD : valid_date req.date = true)
    (hE : serp.error = none) (hN : serp.news_results = some items)
    (h : fetch_news cfg req serp (.dict kvs) = (.ok r, t)) :
    (kvs.lookup "headline" = none → r.headline = "News of the Day") ∧
    (kvs.lookup "summary" = none → r.summary = "Summary not available.") ∧
    ("Summary not available." : String) ≠
      "Summary not available due to processing error." := by
  have heq : fetch_news cfg req serp (.dict kvs) =
      (.ok ⟨(items.take 15).map (toArticle req.date),
            dictGet kvs "summary" "Summary not available.",
            dictGet kvs "headline" "News of the Day"⟩,
       ⟨true, true, some (joinArticles ((items.take 15).map (toArticle req.date)))⟩) := by
    simp [fetch_news, hS, hG, hD, hE, hN, geminiHeadlineSummary]
  rw [h] at heq
  injection heq with e1 e2
  injection e1 with e3
  subst e3
  refine ⟨fun hH => ?_, fun hM => ?_, by decide⟩
  · simp [dictGet, hH]
  · simp [dictGet, hM]

theorem C10_witness :
    (([("headline", "H")] : List (String × String)).lookup "headline" = none →
      (⟨[], "Summary not available.", "H"⟩ : NewsResponse).headline = "News of the Day") ∧
    (([("headline", "H")] : List (String × String)).lookup "summary" = none →
      (⟨[], "Summary not available.", "H"⟩ : NewsResponse).summary = "Summary not available.") ∧
    ("Summary not available." : String) ≠
      "Summary not available due to processing error." :=
  C10_parsed_object_defaults ⟨some "sk", some "gk"⟩ ⟨"2024-01-15", ["economy"]⟩
    ⟨none, some []⟩ [("headline", "H")] []
    ⟨[], "Summary not available.", "H"⟩ ⟨true, true, some ""⟩
    (by decide) (by decide) (by decide) rfl rfl (by decide)

end NewsAgent
